import Mathlib

/-!
Verification of the workshop repository notebooks.

Part 1 embeds the Airflow DAG notebook (src/unnamed/part_000): the operator
configurations, the dependency-wiring statements, and a small interactive
execution semantics for its code cells (a fresh kernel running the cells
top to bottom, where a failing cell contributes none of its remaining
bindings and execution continues with the next cell, as in a notebook UI).

Part 2 embeds the IAM provisioning notebook
(src/04_ingest/archive/IAM_Redshift.ipynb): the try/except guard around each
creation call and the cells that read the created handles.

Part 3 embeds the bucket-setup notebook
(src/10_pipeline/airflow/00_Create_S3_Bucket.ipynb).

Part 4 embeds the feature-preprocessing notebook
(src/02_usecases/sagemaker_recommendations/wip/04_Featurization.ipynb):
the configured Keras preprocessing layers, with the external layers
modelled by their documented semantics over exact rationals.
-/

/-! ### Part 1: the Airflow DAG notebook -/

/-- The five task identifiers of the DAG, as in the task_id arguments. -/
inductive TaskId
  | start
  | process
  | train
  | model
  | deploy
deriving DecidableEq, Repr

/-- Configuration of a SageMaker operator as constructed in the notebook:
its task_id string and its wait_for_completion flag. -/
structure SageMakerOperatorCfg where
  task_id : String
  wait_for_completion : Bool
deriving DecidableEq, Repr

/-- SageMakerProcessingOperator(task_id = process, wait_for_completion = True). -/
def process_op : SageMakerOperatorCfg := ⟨"process", true⟩

/-- SageMakerTrainingOperator(task_id = train, wait_for_completion = True). -/
def train_op : SageMakerOperatorCfg := ⟨"train", true⟩

/-- SageMakerModelOperator(task_id = model, wait_for_completion = True). -/
def model_op : SageMakerOperatorCfg := ⟨"model", true⟩

/-- SageMakerEndpointOperator(task_id = deploy, wait_for_completion = True). -/
def deploy_op : SageMakerOperatorCfg := ⟨"deploy", true⟩

/-- One top-level Python statement of a code cell: the names it reads, in
evaluation order; the names it binds when it runs; and, for a dependency
statement x.set_upstream(y) or y.set_downstream(x), the DAG edge
(upstream variable, downstream variable) it would establish. -/
structure NbStmt where
  reads : List String
  binds : List String
  edge : Option (String × String)
deriving DecidableEq, Repr

/-- A statement with no edge. -/
def stmt (reads binds : List String) : NbStmt := ⟨reads, binds, none⟩

/-- A dependency statement: reads its two variables in evaluation order and
would establish the edge (upstream variable, downstream variable). -/
def depStmt (reads : List String) (e : String × String) : NbStmt := ⟨reads, [], some e⟩

/-- A code cell: whether its source parses (wellFormed), and its statements.
A cell whose source does not parse runs nothing. -/
structure NbCell where
  wellFormed : Bool
  stmts : List NbStmt
deriving DecidableEq, Repr

/-- Outcome of running one cell. -/
inductive CellResult
  | ok
  | parseError
  | nameError (missing : String)
deriving DecidableEq, Repr

/-- Interpreter state: the bound names and the DAG edges established so far. -/
structure ExecState where
  env : List String
  edges : List (String × String)
deriving DecidableEq, Repr

/-- Run the statements of a cell in order.  A statement whose reads are all
bound adds its bindings and its edge; the first statement that reads an
unbound name stops the cell with a NameError (earlier bindings persist). -/
def runStmts : ExecState → List NbStmt → ExecState × CellResult
  | st, [] => (st, .ok)
  | st, s :: rest =>
    match s.reads.find? (fun n => !(st.env.contains n)) with
    | some missing => (st, .nameError missing)
    | none => runStmts ⟨st.env ++ s.binds, st.edges ++ s.edge.toList⟩ rest

/-- Run one cell: a cell that does not parse raises a parse error and binds
nothing; otherwise its statements run in order. -/
def runCell (st : ExecState) (c : NbCell) : ExecState × CellResult :=
  if c.wellFormed then runStmts st c.stmts else (st, .parseError)

/-- Run the notebook cells top to bottom in a fresh kernel, recording each
cell result; a failed cell does not stop the following cells. -/
def runNotebook (cells : List NbCell) : ExecState × List CellResult :=
  cells.foldl
    (fun acc c =>
      let r := runCell acc.1 c
      (r.1, acc.2 ++ [r.2]))
    (⟨[], []⟩, [])

/-- Code cell 0 of the DAG notebook: the airflow imports, default_args and
the DAG constructor. -/
def dagCell0 : NbCell :=
  ⟨true,
   [stmt [] ["airflow", "DAG"],
    stmt [] ["default_args"],
    stmt ["DAG", "default_args"] ["dag"]]⟩

/-- Code cell 1: init = DummyOperator(task_id = start, dag = dag).  The name
DummyOperator is imported nowhere in the notebook. -/
def dagCell1 : NbCell := ⟨true, [stmt ["DummyOperator", "dag"] ["init"]]⟩

/-- Code cell 2: the processing-operator cell.  Its two imports bind the
operator class and processing_config; the processing_config call then reads
estimator, input_data_s3_uri and output_data_s3_uri as keyword arguments,
in that order; the constructor call builds process_op. -/
def dagCell2 : NbCell :=
  ⟨true,
   [stmt [] ["SageMakerProcessingOperator"],
    stmt [] ["processing_config"],
    stmt ["processing_config", "estimator", "input_data_s3_uri", "output_data_s3_uri"]
      ["process_config"],
    stmt ["SageMakerProcessingOperator", "process_config", "dag"] ["process_op"]]⟩

/-- Code cell 3: process_op.set_upstream(init). -/
def dagCell3 : NbCell := ⟨true, [depStmt ["process_op", "init"] ("init", "process_op")]⟩

/-- Code cell 4: the TensorFlow estimator cell.  The constructor call reads
the free names of its arguments in order (role, the train_* settings, the
hyperparameter values, and so on) and binds estimator. -/
def dagCell4 : NbCell :=
  ⟨true,
   [stmt [] ["TensorFlow"],
    stmt ["TensorFlow", "role", "train_instance_count", "train_instance_type",
      "train_volume_size", "checkpoint_s3_uri", "epochs", "learning_rate", "epsilon",
      "train_batch_size", "validation_batch_size", "test_batch_size",
      "train_steps_per_epoch", "validation_steps", "test_steps", "use_xla", "use_amp",
      "max_seq_length", "freeze_bert_layer", "enable_sagemaker_debugger",
      "enable_checkpointing", "enable_tensorboard", "run_validation", "run_test",
      "run_sample_predictions", "input_mode", "metrics_definitions", "rules",
      "hook_config"] ["estimator"]]⟩

/-- Code cell 5: the training-operator cell (imports, training_config call
reading estimator and input_data_s3_uri, then the constructor). -/
def dagCell5 : NbCell :=
  ⟨true,
   [stmt [] ["SageMakerTrainingOperator"],
    stmt [] ["training_config"],
    stmt ["training_config", "estimator", "input_data_s3_uri"] ["train_config"],
    stmt ["SageMakerTrainingOperator", "train_config", "dag"] ["train_op"]]⟩

/-- Code cell 6: train_op.set_upstream(process_op). -/
def dagCell6 : NbCell :=
  ⟨true, [depStmt ["train_op", "process_op"] ("process_op", "train_op")]⟩

/-- Code cell 7: the model-operator cell (imports bind the operator class and
model_config, then the constructor builds model_op). -/
def dagCell7 : NbCell :=
  ⟨true,
   [stmt [] ["SageMakerModelOperator"],
    stmt [] ["model_config"],
    stmt ["SageMakerModelOperator", "model_config", "dag"] ["model_op"]]⟩

/-- Code cell 8: model_op.set_upstream(train_op). -/
def dagCell8 : NbCell :=
  ⟨true, [depStmt ["model_op", "train_op"] ("train_op", "model_op")]⟩

/-- Code cell 9: the endpoint-operator cell.  Its import line ends in a comma
followed by a comment, which Python rejects, so the cell does not parse; had
it parsed, it would import the operator class and endpoint_config and build
deploy_op. -/
def dagCell9 : NbCell :=
  ⟨false,
   [stmt [] ["SageMakerEndpointOperator"],
    stmt [] ["endpoint_config"],
    stmt ["SageMakerEndpointOperator", "endpoint_config", "dag"] ["deploy_op"]]⟩

/-- Code cell 10: deploy_op.set_upstream(model_op). -/
def dagCell10 : NbCell :=
  ⟨true, [depStmt ["deploy_op", "model_op"] ("model_op", "deploy_op")]⟩

/-- Code cell 11: the final dependency-setup cell, four set_downstream
statements; the second reads the name processing_op. -/
def dagCell11 : NbCell :=
  ⟨true,
   [depStmt ["init", "process_op"] ("init", "process_op"),
    depStmt ["processing_op", "train_op"] ("processing_op", "train_op"),
    depStmt ["train_op", "model_op"] ("train_op", "model_op"),
    depStmt ["model_op", "deploy_op"] ("model_op", "deploy_op")]⟩

/-- The twelve code cells of the DAG notebook, in order. -/
def dagCells : List NbCell :=
  [dagCell0, dagCell1, dagCell2, dagCell3, dagCell4, dagCell5, dagCell6, dagCell7,
   dagCell8, dagCell9, dagCell10, dagCell11]

/-- The dependency-wiring statements of the notebook as written, in source
order, as (upstream variable, downstream variable) pairs. -/
def wiringStmts : List (String × String) :=
  ((dagCells.map NbCell.stmts).flatten).filterMap NbStmt.edge

/-- The operator variable each name denotes, read off the assignments of the
notebook: no assignment binds the name processing_op. -/
def varToTask : String → Option TaskId
  | "init" => some .start
  | "process_op" => some .process
  | "train_op" => some .train
  | "model_op" => some .model
  | "deploy_op" => some .deploy
  | _ => none

/-- The task-level edges the wiring statements denote: a statement whose two
variables both denote operators denotes the corresponding edge. -/
def establishedEdges : List (TaskId × TaskId) :=
  wiringStmts.filterMap fun p =>
    match varToTask p.1, varToTask p.2 with
    | some a, some b => some (a, b)
    | _, _ => none

/-- The intended linear chain start → process → train → model → deploy. -/
def chainEdges : List (TaskId × TaskId) :=
  [(.start, .process), (.process, .train), (.train, .model), (.model, .deploy)]

/-- The distinct upstream tasks of a task under the denoted wiring. -/
def upstreamOf (t : TaskId) : List TaskId :=
  ((establishedEdges.filter (fun e => e.2 = t)).map Prod.fst).dedup

/-! ### Part 1 theorems -/

/-- C1: the five task nodes start, process, train, model and deploy are wired
into a fixed 5-node linear chain: the dependency-setup statements denote
exactly the chain edges start → process → train → model → deploy, and under
that wiring each task's sole upstream dependency is its predecessor (start
has none). -/
theorem C1_dag_fixed_linear_chain :
    (establishedEdges.all (fun e => chainEdges.contains e)) = true ∧
    (chainEdges.all (fun e => establishedEdges.contains e)) = true ∧
    upstreamOf .start = [] ∧
    upstreamOf .process = [.start] ∧
    upstreamOf .train = [.process] ∧
    upstreamOf .model = [.train] ∧
    upstreamOf .deploy = [.model] := by decide

/-- C4: each of the four SageMaker operator nodes of the DAG (process, train,
model, deploy) is constructed with wait_for_completion set to true. -/
theorem C4_operators_wait_for_completion :
    process_op.wait_for_completion = true ∧
    train_op.wait_for_completion = true ∧
    model_op.wait_for_completion = true ∧
    deploy_op.wait_for_completion = true ∧
    [process_op.task_id, train_op.task_id, model_op.task_id, deploy_op.task_id] =
      ["process", "train", "model", "deploy"] := by decide

/-- C9: running the DAG notebook cells top to bottom in a fresh kernel never
completes the 5-node chain: the processing-operator cell stops with a
NameError on estimator, which no earlier cell binds (only the later
estimator cell does); the endpoint-operator cell does not parse; the final
dependency-setup cell reads the name processing_op, which no cell of the
notebook binds, and it too stops with a NameError; and no dependency edge
is ever established by the run. -/
theorem C9_dag_notebook_never_builds_chain :
    (runNotebook dagCells).2 =
      [.ok, .nameError "DummyOperator", .nameError "estimator", .nameError "process_op",
       .nameError "role", .nameError "estimator", .nameError "train_op", .ok,
       .nameError "train_op", .parseError, .nameError "deploy_op", .nameError "init"] ∧
    ((dagCells.take 4).all fun c => c.stmts.all fun s => !(s.binds.contains "estimator")) = true ∧
    (dagCell4.stmts.any fun s => s.binds.contains "estimator") = true ∧
    dagCell9.wellFormed = false ∧
    (dagCell11.stmts.any fun s => s.reads.contains "processing_op") = true ∧
    (dagCells.all fun c => c.stmts.all fun s => !(s.binds.contains "processing_op")) = true ∧
    (runNotebook dagCells).1.edges = [] := by decide

/-! ### Part 2: the IAM provisioning notebook -/

/-- A botocore ClientError, reduced to its error code. -/
structure AwsError where
  code : String
deriving DecidableEq, Repr

/-- The except-branch shared by every guarded creation cell of the IAM
notebook: on ClientError, if the code is EntityAlreadyExists print the
given already-exists message, otherwise print the error; nothing is
re-raised. -/
def alreadyExistsHandler (successMsg : String) (e : AwsError) : List String :=
  if e.code = "EntityAlreadyExists" then [successMsg]
  else ["Unexpected error: " ++ e.code]

/-- State of a guarded creation cell after it runs: the binding of the cell's
target variable (none when the try body raised), the lines it printed, and
the exception escaping the cell (always none: the handler catches every
ClientError). -/
structure GuardedCellRun (α : Type) where
  boundValue : Option α
  log : List String
  raised : Option AwsError
deriving Repr

/-- A guarded creation cell of the IAM notebook: one API call inside try (it
consumes exactly one outcome from the oracle of API outcomes), whose
ClientError is handled by alreadyExistsHandler.  Returns the cell run and
the unconsumed rest of the oracle. -/
def runGuardedCreationCell {α : Type} (successMsg : String)
    (oracle : List (Except AwsError α)) :
    GuardedCellRun α × List (Except AwsError α) :=
  match oracle with
  | [] => (⟨none, [], none⟩, [])
  | .ok r :: rest => (⟨some r, [], none⟩, rest)
  | .error e :: rest => (⟨none, alreadyExistsHandler successMsg e, none⟩, rest)

/-- The Role field of a create_role response. -/
structure RoleInfo where
  Arn : String
deriving DecidableEq, Repr

/-- A create_role response, as the notebook indexes it. -/
structure CreateRoleResponse where
  Role : RoleInfo
deriving DecidableEq, Repr

/-- The Policy field of a create_policy response. -/
structure PolicyInfo where
  Arn : String
deriving DecidableEq, Repr

/-- A create_policy response, as the notebook indexes it. -/
structure CreatePolicyResponse where
  Policy : PolicyInfo
deriving DecidableEq, Repr

/-- Result of evaluating a Python expression in a fresh kernel. -/
inductive PyResult (α : Type)
  | ok (a : α)
  | nameError (missing : String)
deriving Repr

/-- The cell after the create_role cell, in a fresh kernel:
iam_role_redshift_arn = iam_role_redshift[Role][Arn].  It succeeds only if
the create_role cell bound iam_role_redshift. -/
def roleArnCell (iam_role_redshift : Option CreateRoleResponse) : PyResult String :=
  match iam_role_redshift with
  | some r => .ok r.Role.Arn
  | none => .nameError "iam_role_redshift"

/-- The print(policy_redshift_s3) statement at the end of the create_policy
cell, in a fresh kernel: it succeeds only if the try body bound
policy_redshift_s3. -/
def printPolicyStmt (policy_redshift_s3 : Option CreatePolicyResponse) : PyResult String :=
  match policy_redshift_s3 with
  | some r => .ok r.Policy.Arn
  | none => .nameError "policy_redshift_s3"

/-- One resource-creation call site of the repository: the API it calls, the
notebook it lives in, whether a try/except guard wraps it, and the error
code its handler treats as success. -/
structure CreationSite where
  api : String
  notebook : String
  guarded : Bool
  caughtCode : Option String
deriving DecidableEq, Repr

/-- Every resource-creation call site of the repository, read off the
sources: the five IAM calls of IAM_Redshift.ipynb each sit inside a
try/except ClientError testing for EntityAlreadyExists; the s3.create_bucket
call of 00_Create_S3_Bucket.ipynb has no surrounding try/except. -/
def creationSites : List CreationSite :=
  [⟨"iam.create_role", "04_ingest/archive/IAM_Redshift.ipynb", true, some "EntityAlreadyExists"⟩,
   ⟨"iam.create_policy DSOAWS_RedshiftPolicyToS3", "04_ingest/archive/IAM_Redshift.ipynb",
     true, some "EntityAlreadyExists"⟩,
   ⟨"iam.create_policy DSOAWS_RedshiftPolicyToAthena", "04_ingest/archive/IAM_Redshift.ipynb",
     true, some "EntityAlreadyExists"⟩,
   ⟨"iam.attach_role_policy Athena", "04_ingest/archive/IAM_Redshift.ipynb",
     true, some "EntityAlreadyExists"⟩,
   ⟨"iam.attach_role_policy S3", "04_ingest/archive/IAM_Redshift.ipynb",
     true, some "EntityAlreadyExists"⟩,
   ⟨"s3.create_bucket", "10_pipeline/airflow/00_Create_S3_Bucket.ipynb", false, none⟩]

/-! ### Part 2 theorems -/

/-- C2 counterexample: it is false that every resource-creation call of the
repository is wrapped in an already-exists handler — the s3.create_bucket
call is unguarded. -/
theorem C2_counterexample_unguarded_create_bucket :
    ¬ ((creationSites.all fun s => s.guarded) = true) := by decide

/-- C2 (amended): the five IAM resource-creation calls (role creation, two
policy creations, two policy attachments) are each wrapped in a handler
catching the single error code EntityAlreadyExists, but the s3.create_bucket
call of the bucket-setup notebook is the one resource-creation call left
unguarded. -/
theorem C2_amended_iam_calls_guarded_bucket_not :
    ((creationSites.filter fun s => s.guarded).all
      fun s => s.caughtCode = some "EntityAlreadyExists") = true ∧
    ((creationSites.filter fun s => s.guarded).length = 5) ∧
    ((creationSites.filter fun s => !s.guarded).map fun s => s.api) = ["s3.create_bucket"] := by
  decide

/-- C3 counterexample: when create_role fails with EntityAlreadyExists the
handler does print the already-exists message, but in a fresh kernel the
subsequent cell that extracts the role ARN does not execute successfully —
it stops with a NameError on iam_role_redshift, because the try body never
bound that variable. -/
theorem C3_counterexample_handle_read_fails :
    (runGuardedCreationCell "Role already exists"
        [(Except.error ⟨"EntityAlreadyExists"⟩ : Except AwsError CreateRoleResponse)]).1.log =
      ["Role already exists"] ∧
    ¬ ∃ a, roleArnCell
        (runGuardedCreationCell "Role already exists"
          [(Except.error ⟨"EntityAlreadyExists"⟩ : Except AwsError CreateRoleResponse)]).1.boundValue =
        PyResult.ok a := by
  refine ⟨rfl, ?_⟩
  rintro ⟨a, h⟩
  simp [runGuardedCreationCell, alreadyExistsHandler, roleArnCell] at h

/-- C3 (amended): when a guarded creation call fails with EntityAlreadyExists
the handler prints the already-exists message and swallows the exception,
but the cell leaves its target variable unbound, so in a fresh kernel the
subsequent reads of the created resource's handle (the role-ARN extraction,
the print of the policy response) stop with a NameError instead of
executing successfully. -/
theorem C3_amended_already_exists_leaves_handle_unbound :
    ∀ rest : List (Except AwsError CreateRoleResponse),
    ∀ rest2 : List (Except AwsError CreatePolicyResponse),
    (runGuardedCreationCell "Role already exists"
        (.error ⟨"EntityAlreadyExists"⟩ :: rest)).1.log = ["Role already exists"] ∧
    (runGuardedCreationCell "Role already exists"
        (.error ⟨"EntityAlreadyExists"⟩ :: rest)).1.raised = none ∧
    (runGuardedCreationCell "Role already exists"
        (.error ⟨"EntityAlreadyExists"⟩ :: rest)).1.boundValue = none ∧
    roleArnCell
        (runGuardedCreationCell "Role already exists"
          (.error ⟨"EntityAlreadyExists"⟩ :: rest)).1.boundValue =
      .nameError "iam_role_redshift" ∧
    (runGuardedCreationCell "Policy already exists"
        (.error ⟨"EntityAlreadyExists"⟩ :: rest2)).1.log = ["Policy already exists"] ∧
    printPolicyStmt
        (runGuardedCreationCell "Policy already exists"
          (.error ⟨"EntityAlreadyExists"⟩ :: rest2)).1.boundValue =
      .nameError "policy_redshift_s3" := by
  intro rest rest2
  refine ⟨rfl, rfl, rfl, rfl, rfl, rfl⟩

/-- C5: when a guarded creation call fails with an error code other than
EntityAlreadyExists, the handler prints the error and nothing else happens:
no exception escapes the cell, the target variable stays unbound, and the
rest of the API-outcome oracle is returned untouched — the creation was
attempted exactly once, with no retry and no rollback call. -/
theorem C5_other_errors_printed_and_dropped {α : Type} (successMsg : String)
    (e : AwsError) (rest : List (Except AwsError α))
    (h : e.code ≠ "EntityAlreadyExists") :
    (runGuardedCreationCell successMsg (.error e :: rest)).1.log =
      ["Unexpected error: " ++ e.code] ∧
    (runGuardedCreationCell successMsg (.error e :: rest)).1.raised = none ∧
    (runGuardedCreationCell successMsg (.error e :: rest)).1.boundValue = none ∧
    (runGuardedCreationCell successMsg (.error e :: rest)).2 = rest := by
  refine ⟨?_, rfl, rfl, rfl⟩
  simp [runGuardedCreationCell, alreadyExistsHandler, h]

/-- Witness for C5 at a concrete input: an AccessDenied failure of
create_role is printed as an unexpected error, escapes nowhere, and consumes
exactly the one outcome. -/
theorem C5_witness :
    (runGuardedCreationCell "Role already exists"
        [(Except.error ⟨"AccessDenied"⟩ : Except AwsError CreateRoleResponse)]).1.log =
      ["Unexpected error: AccessDenied"] ∧
    (runGuardedCreationCell "Role already exists"
        [(Except.error ⟨"AccessDenied"⟩ : Except AwsError CreateRoleResponse)]).1.raised = none ∧
    (runGuardedCreationCell "Role already exists"
        [(Except.error ⟨"AccessDenied"⟩ : Except AwsError CreateRoleResponse)]).1.boundValue =
      none ∧
    (runGuardedCreationCell "Role already exists"
        [(Except.error ⟨"AccessDenied"⟩ : Except AwsError CreateRoleResponse)]).2 = [] :=
  C5_other_errors_printed_and_dropped "Role already exists" ⟨"AccessDenied"⟩ [] (by decide)

/-! ### Part 3: the bucket-setup notebook -/

/-- The PublicAccessBlockConfiguration passed to put_public_access_block. -/
structure PublicAccessBlockConfiguration where
  BlockPublicAcls : Bool
  IgnorePublicAcls : Bool
  BlockPublicPolicy : Bool
  RestrictPublicBuckets : Bool
deriving DecidableEq, Repr

/-- airflow_bucket_name = airflow- + region + - + account_id. -/
def airflow_bucket_name (region account_id : String) : String :=
  "airflow-" ++ region ++ "-" ++ account_id

/-- The configuration the notebook applies: all four settings True. -/
def airflowPabConfig : PublicAccessBlockConfiguration := ⟨true, true, true, true⟩

/-- An s3-client API operation of the bucket-setup notebook. -/
inductive S3Op
  | createBucket (bucket : String)
  | putPublicAccessBlock (bucket : String) (cfg : PublicAccessBlockConfiguration)
  | headBucket (bucket : String)
deriving DecidableEq, Repr

/-- The s3-client API calls the notebook issues, in source order.  (The
notebook also shells out to the aws CLI to list the bucket path and uses
%store magics; those are not s3-client API calls.) -/
def notebookS3Ops (region account_id : String) : List S3Op :=
  [.createBucket (airflow_bucket_name region account_id),
   .putPublicAccessBlock (airflow_bucket_name region account_id) airflowPabConfig,
   .headBucket (airflow_bucket_name region account_id)]

/-- The cell that initialises the flag: setup_s3_bucket_passed = False. -/
def setup_s3_bucket_passed_init : Bool := false

/-- The verification cell: try head_bucket; on success print the response and
set the flag; on ClientError print the error message (response is still
None there, having been reset before the try).  Returns the flag value
after the cell and the printed lines. -/
def verifyBucketCell (bucket : String) (outcome : Except AwsError String) :
    Bool × List String :=
  match outcome with
  | .ok resp => (true, [resp])
  | .error e =>
    (setup_s3_bucket_passed_init,
     ["[ERROR] Cannot find bucket " ++ bucket ++ " in None due to " ++ e.code ++ "."])

/-! ### Part 3 theorems -/

/-- C6: the bucket-setup notebook issues exactly three s3-client operations,
in this order and all on the same bucket name: create_bucket,
put_public_access_block, head_bucket; the setup_s3_bucket_passed flag starts
false and after the verification cell is true exactly when the head_bucket
call succeeded, and on failure it stays false while an error line is
printed. -/
theorem C6_bucket_setup_ops_and_flag (region account_id : String)
    (outcome : Except AwsError String) (e : AwsError) :
    notebookS3Ops region account_id =
      [.createBucket (airflow_bucket_name region account_id),
       .putPublicAccessBlock (airflow_bucket_name region account_id) airflowPabConfig,
       .headBucket (airflow_bucket_name region account_id)] ∧
    setup_s3_bucket_passed_init = false ∧
    ((verifyBucketCell (airflow_bucket_name region account_id) outcome).1 = true ↔
      outcome.toOption.isSome = true) ∧
    (verifyBucketCell (airflow_bucket_name region account_id) (.error e)).1 = false ∧
    (verifyBucketCell (airflow_bucket_name region account_id) (.error e)).2 =
      ["[ERROR] Cannot find bucket " ++ airflow_bucket_name region account_id ++
        " in None due to " ++ e.code ++ "."] := by
  refine ⟨rfl, rfl, ?_, rfl, rfl⟩
  cases outcome <;> simp [verifyBucketCell, setup_s3_bucket_passed_init, Except.toOption]

/-- C10: the put_public_access_block call issued right after create_bucket
targets the newly created Airflow bucket and sets all four settings —
BlockPublicAcls, IgnorePublicAcls, BlockPublicPolicy, RestrictPublicBuckets —
to true. -/
theorem C10_public_access_fully_blocked (region account_id : String) :
    (notebookS3Ops region account_id)[1]? =
      some (.putPublicAccessBlock (airflow_bucket_name region account_id) airflowPabConfig) ∧
    airflowPabConfig.BlockPublicAcls = true ∧
    airflowPabConfig.IgnorePublicAcls = true ∧
    airflowPabConfig.BlockPublicPolicy = true ∧
    airflowPabConfig.RestrictPublicBuckets = true :=
  ⟨rfl, rfl, rfl, rfl, rfl⟩

/-! ### Part 4: the feature-preprocessing notebook

The Keras preprocessing layers themselves live in the external ML framework;
the repository only configures and composes them.  The layers are therefore
modelled from their documented semantics, over exact rationals in place of
floats, and the theorems are about the compositions the notebook builds. -/

/-- An embedding row or pooled output: a vector of exact rationals. -/
abbrev EmbVec := List ℚ

/-- Componentwise vector addition. -/
def vecAdd (v w : EmbVec) : EmbVec := List.zipWith (· + ·) v w

/-- The zero vector of a given dimension. -/
def vecZero (dim : Nat) : EmbVec := List.replicate dim 0

/-- The mean of a list of vectors of the given dimension (rational division;
division by zero yields zero, so the empty mean is the zero vector). -/
def vecMean (dim : Nat) (vs : List EmbVec) : EmbVec :=
  (vs.foldl vecAdd (vecZero dim)).map fun x => x / (vs.length : ℚ)

/-- A character the default standardization keeps: letters, digits, space. -/
def isKeptChar (c : Char) : Bool := c.isAlphanum || c = ' '

/-- Modelled from the framework layer: the default standardization and
splitting of TextVectorization — lower-case, strip punctuation, split on
whitespace, drop empty pieces. -/
def standardizeTokenize (title : String) : List String :=
  ((title.toLower.toList.filter isKeptChar).asString.splitOn " ").filter
    fun w => !(w.isEmpty)

/-- Position of a word in an adapted vocabulary list (first match). -/
def vocabIndex : List String → String → Option Nat
  | [], _ => none
  | w :: ws, s => if w = s then some 0 else (vocabIndex ws s).map fun i => i + 1

/-- Token id assigned by an adapted TextVectorization vocabulary: id 0 is the
padding token, id 1 the OOV token, vocabulary words get ids from 2. -/
def tvTokenId (vocab : List String) (w : String) : Nat :=
  match vocabIndex vocab w with
  | some i => i + 2
  | none => 1

/-- The TextVectorization layer in int mode: tokenize the raw title and map
each word to its vocabulary id. -/
def textVectorization (vocab : List String) (title : String) : List Nat :=
  (standardizeTokenize title).map (tvTokenId vocab)

/-- The Embedding layer applied to a sequence of token ids: look each id up
in the embedding table. -/
def embedLookup (table : Nat → EmbVec) (ids : List Nat) : List EmbVec := ids.map table

/-- The mask produced by Embedding with mask_zero = True: position masked out
exactly when its token id is 0. -/
def maskOfIds (ids : List Nat) : List Bool := ids.map fun i => i != 0

/-- The vectors surviving a mask. -/
def keptByMask : List EmbVec → List Bool → List EmbVec
  | [], _ => []
  | _, [] => []
  | v :: vs, b :: ms => if b then v :: keptByMask vs ms else keptByMask vs ms

/-- GlobalAveragePooling1D under a mask: the mean of the unmasked vectors. -/
def globalAveragePooling1D (dim : Nat) (vecs : List EmbVec) (mask : List Bool) : EmbVec :=
  vecMean dim (keptByMask vecs mask)

/-- The kinds of Keras layers appearing in the title-text pipeline. -/
inductive KerasLayerKind
  | textVectorizationLayer
  | embeddingLayer
  | globalAveragePoolingLayer
deriving DecidableEq, Repr

/-- The Sequential stack of MovieModel.title_text_embedding as configured in
the notebook: TextVectorization(max_tokens = 10000), then
Embedding(10000, 32, mask_zero = True), then GlobalAveragePooling1D. -/
def titleTextEmbeddingLayers : List KerasLayerKind :=
  [.textVectorizationLayer, .embeddingLayer, .globalAveragePoolingLayer]

/-- The title-text feature pipeline of MovieModel as applied to one raw
title: vectorize, embed (output dimension 32, mask on id 0), pool. -/
def title_text_embedding (vocab : List String) (table : Nat → EmbVec)
    (title : String) : EmbVec :=
  globalAveragePooling1D 32 (embedLookup table (textVectorization vocab title))
    (maskOfIds (textVectorization vocab title))

/-- Modelled from the framework layer: the deterministic 64-bit string hash
used by Hashing and by StringLookup OOV bucketing (FarmHash64 in the real
layer), modelled as a concrete polynomial hash; the claims depend only on
its determinism and totality. -/
def strHash (s : String) : Nat :=
  s.toList.foldl (fun h c => (h * 31 + c.toNat) % 2 ^ 64) 5381

/-- num_hashing_bins = 200_000 as set in the notebook. -/
def num_hashing_bins : Nat := 200000

/-- The Hashing layer: every input is hashed into a bin below num_bins. -/
def hashingLayer (numBins : Nat) (s : String) : Nat := strHash s % numBins

/-- movie_title_hashing = Hashing(num_bins = num_hashing_bins). -/
def movie_title_hashing (s : String) : Nat := hashingLayer num_hashing_bins s

/-- The StringLookup layer with an adapted vocabulary: the mask token (the
empty string) maps to index 0, the numOovIndices OOV buckets occupy indices
1..numOovIndices and absent values hash into them, and vocabulary words
follow from index numOovIndices + 1. -/
def stringLookup (numOovIndices : Nat) (vocab : List String) (s : String) : Nat :=
  if s = "" then 0
  else
    match vocabIndex vocab s with
    | some i => i + 1 + numOovIndices
    | none => 1 + strHash s % numOovIndices

/-- movie_title_lookup = StringLookup() with the default single OOV index,
adapted on the movie titles. -/
def movie_title_lookup (vocab : List String) (s : String) : Nat :=
  stringLookup 1 vocab s

/-! ### Part 4 lemmas -/

/-- A token id assigned by TextVectorization is never the padding id 0. -/
theorem tvTokenId_ne_zero (vocab : List String) (w : String) :
    (tvTokenId vocab w != 0) = true := by
  unfold tvTokenId
  cases h : vocabIndex vocab w <;> simp

/-- A mask that is true everywhere keeps every vector. -/
theorem keptByMask_of_no_zero (table : Nat → EmbVec) (ids : List Nat)
    (h : (ids.all fun i => i != 0) = true) :
    keptByMask (ids.map table) (maskOfIds ids) = ids.map table := by
  induction ids with
  | nil => rfl
  | cons i ids ih =>
    rw [List.all_cons, Bool.and_eq_true] at h
    show keptByMask (table i :: ids.map table) ((i != 0) :: maskOfIds ids) = _
    rw [keptByMask, if_pos h.1, ih h.2]
    rfl

/-- Folding vector addition over same-dimension vectors keeps the dimension. -/
theorem foldl_vecAdd_length (dim : Nat) (vs : List EmbVec) :
    ∀ acc : EmbVec, acc.length = dim → (∀ v ∈ vs, v.length = dim) →
      (vs.foldl vecAdd acc).length = dim := by
  induction vs with
  | nil => intro acc hacc _; simpa using hacc
  | cons v vs ih =>
    intro acc hacc hall
    rw [List.foldl_cons]
    refine ih (vecAdd acc v) ?_ fun u hu => hall u (List.mem_cons_of_mem _ hu)
    rw [vecAdd, List.length_zipWith, hacc, hall v (List.mem_cons_self _ _), min_self]

/-- The mean of same-dimension vectors has that dimension. -/
theorem vecMean_length (dim : Nat) (vs : List EmbVec)
    (h : ∀ v ∈ vs, v.length = dim) : (vecMean dim vs).length = dim := by
  rw [vecMean, List.length_map]
  exact foldl_vecAdd_length dim vs (vecZero dim) (List.length_replicate _ _) h

/-- The title-text pipeline output is the mean of the word embeddings. -/
theorem title_text_embedding_eq_mean (vocab : List String) (table : Nat → EmbVec)
    (title : String) :
    title_text_embedding vocab table title =
      vecMean 32 ((standardizeTokenize title).map fun w => table (tvTokenId vocab w)) := by
  rw [title_text_embedding, globalAveragePooling1D, embedLookup, textVectorization,
    keptByMask_of_no_zero, List.map_map]
  · rfl
  · refine List.all_eq_true.mpr fun i hi => ?_
    rcases List.mem_map.mp hi with ⟨w, _, rfl⟩
    exact tvTokenId_ne_zero vocab w

/-- A word position found in the vocabulary is below its length. -/
theorem vocabIndex_lt (s : String) : ∀ (l : List String) (i : Nat),
    vocabIndex l s = some i → i < l.length := by
  intro l
  induction l with
  | nil => intro i h; simp [vocabIndex] at h
  | cons w ws ih =>
    intro i h
    by_cases hw : w = s
    · rw [vocabIndex, if_pos hw] at h
      cases h
      simp
    · rw [vocabIndex, if_neg hw] at h
      rcases Option.map_eq_some'.mp h with ⟨j, hj, rfl⟩
      have := ih j hj
      simp only [List.length_cons]
      omega

/-- A word not in the vocabulary has no vocabulary position. -/
theorem vocabIndex_eq_none (s : String) : ∀ l : List String, s ∉ l →
    vocabIndex l s = none := by
  intro l
  induction l with
  | nil => intro _; rfl
  | cons w ws ih =>
    intro h
    have hw : w ≠ s := fun hh => h (hh ▸ List.mem_cons_self _ _)
    have hs : s ∉ ws := fun hh => h (List.mem_cons_of_mem _ hh)
    rw [vocabIndex, if_neg hw, ih hs]
    rfl

/-! ### Part 4 theorems -/

/-- C7: the title-text feature of MovieModel is a pipeline of exactly the
three stages TextVectorization, Embedding, GlobalAveragePooling1D, and for
every raw title (given a 32-wide embedding table, as configured) it yields
one fixed-size 32-vector equal to the mean of the embeddings of the title's
words. -/
theorem C7_title_text_is_mean_of_word_embeddings (vocab : List String)
    (table : Nat → EmbVec) (title : String)
    (htable : ∀ i, (table i).length = 32) :
    titleTextEmbeddingLayers =
      [.textVectorizationLayer, .embeddingLayer, .globalAveragePoolingLayer] ∧
    titleTextEmbeddingLayers.length = 3 ∧
    title_text_embedding vocab table title =
      vecMean 32 ((standardizeTokenize title).map fun w => table (tvTokenId vocab w)) ∧
    (title_text_embedding vocab table title).length = 32 := by
  refine ⟨rfl, rfl, title_text_embedding_eq_mean vocab table title, ?_⟩
  rw [title_text_embedding_eq_mean vocab table title]
  refine vecMean_length 32 _ fun v hv => ?_
  rcases List.mem_map.mp hv with ⟨w, _, rfl⟩
  exact htable _

/-- Witness for C7 at a concrete input: a two-word vocabulary, the all-ones
32-wide table and the title Star Wars. -/
theorem C7_witness :
    title_text_embedding ["star", "wars"] (fun _ => List.replicate 32 1) "Star Wars" =
      vecMean 32 ((standardizeTokenize "Star Wars").map fun w =>
        (fun _ => List.replicate 32 1) (tvTokenId ["star", "wars"] w)) ∧
    (title_text_embedding ["star", "wars"] (fun _ => List.replicate 32 1) "Star Wars").length
      = 32 :=
  (C7_title_text_is_mean_of_word_embeddings ["star", "wars"]
    (fun _ => List.replicate 32 1) "Star Wars" fun _ => List.length_replicate _ _).2.2

/-- C8: the categorical mappings are total: movie_title_lookup maps every
string to an index below the layer vocabulary size (mask plus OOV plus
adapted words); a nonempty string absent from the adapted vocabulary goes,
via the OOV hashing formula, to the single reserved OOV index 1 rather than
failing; and movie_title_hashing maps every input into a bin below
num_hashing_bins = 200000. -/
theorem C8_lookup_and_hashing_total (vocab : List String) (s t : String)
    (hne : s ≠ "") (hs : s ∉ vocab) :
    movie_title_lookup vocab s = 1 + strHash s % 1 ∧
    movie_title_lookup vocab s = 1 ∧
    (∀ r : String, movie_title_lookup vocab r < vocab.length + 2) ∧
    movie_title_hashing t < num_hashing_bins ∧
    num_hashing_bins = 200000 := by
  have hoov : movie_title_lookup vocab s = 1 + strHash s % 1 := by
    rw [movie_title_lookup, stringLookup, if_neg hne, vocabIndex_eq_none s vocab hs]
  refine ⟨hoov, ?_, ?_, ?_, rfl⟩
  · rw [hoov, Nat.mod_one]
  · intro r
    rw [movie_title_lookup, stringLookup]
    by_cases hr : r = ""
    · rw [if_pos hr]; omega
    · rw [if_neg hr]
      cases h : vocabIndex vocab r with
      | none =>
        show 1 + strHash r % 1 < vocab.length + 2
        rw [Nat.mod_one]
        omega
      | some i =>
        show i + 1 + 1 < vocab.length + 2
        have := vocabIndex_lt r vocab i h
        omega
  · exact Nat.mod_lt _ (by decide)

/-- Witness for C8 at a concrete input: a one-title vocabulary and the
absent nonempty title Casablanca. -/
theorem C8_witness :
    movie_title_lookup ["Star Wars (1977)"] "Casablanca" = 1 ∧
    movie_title_hashing "Casablanca" < num_hashing_bins :=
  ⟨(C8_lookup_and_hashing_total ["Star Wars (1977)"] "Casablanca" "Casablanca"
      (by decide) (by decide)).2.1,
   (C8_lookup_and_hashing_total ["Star Wars (1977)"] "Casablanca" "Casablanca"
      (by decide) (by decide)).2.2.2.1⟩
